import Mathlib

/-!
# OneNoteMidi: message encoding and the one-note lifecycle

A shallow embedding of `OneNoteMidi/OneNoteMidi.cpp`.

* `uint8_t` / `uint32_t` / `DWORD` / `MMRESULT` values are natural numbers; the
  places where the source narrows to eight bits carry an explicit `% 256`.
* The `MidiMessage` union is a record of its four bytes; `dwData` is the
  little-endian overlay (byte 0 is the low-order byte), which is the layout on
  every Windows target and the layout `midiOutShortMsg` documents.
* The Windows MIDI driver is an oracle (`Driver`): it answers each API call with
  an `MMRESULT`, and may look at everything that happened before the call.
* Everything observable (console output, the API calls with their answers, the
  sleep) is appended to a trace of `Event`s, oldest first.
* C++ exceptions are the error side of `Except Exn`; a function that can throw
  returns an `Outcome`: the trace up to the throw or the return, and the result.
-/

namespace OneNoteMidi

/-! ## Data model -/

/-- The success code of the Windows multimedia API (`MMSYSERR_NOERROR` in
`mmsystem.h`). -/
def MMSYSERR_NOERROR : Nat := 0

/-- The union `MidiMessage`: four bytes `bData[0..3]`, all zero initially
(`dwData{ 0 }`). -/
structure MidiMessage where
  bData0 : Nat := 0
  bData1 : Nat := 0
  bData2 : Nat := 0
  bData3 : Nat := 0
  deriving DecidableEq, Repr

/-- The `DWORD` view of the union: `bData[0]` is the low-order byte. -/
def MidiMessage.dwData (m : MidiMessage) : Nat :=
  m.bData0 + m.bData1 * 2 ^ 8 + m.bData2 * 2 ^ 16 + m.bData3 * 2 ^ 24

/-- Byte `i` (0 is the low-order byte) of a 32-bit word as the device receives it. -/
def byteOf (dw : Nat) (i : Nat) : Nat := dw / 2 ^ (8 * i) % 256

/-- The four bytes of a 32-bit word, `bData[0]` first. -/
def bytesOf (dw : Nat) : List Nat := [byteOf dw 0, byteOf dw 1, byteOf dw 2, byteOf dw 3]

/-- The two exception classes the program throws: `MidiException` (carrying the
`MMRESULT`) and `std::invalid_argument` (carrying its message). -/
inductive Exn where
  | MidiException (MidiFuncResult : Nat)
  | invalid_argument (msg : String)
  deriving DecidableEq, Repr

/-- The text `what()` returns: `GenerateExceptionMessage` for a `MidiException`,
the message itself for `std::invalid_argument`. -/
def Exn.what : Exn → String
  | .MidiException r => "Midi Error: " ++ toString r
  | .invalid_argument s => s

/-- One observable action of the program. API calls are recorded with their
arguments and the `MMRESULT` the driver answered. -/
inductive Event where
  | cout (s : String)
  | midiOutOpen (uDeviceID : Nat) (hMidiOut : Nat) (r : Nat)
  | midiOutShortMsg (hMidiOut : Nat) (dwMsg : Nat) (r : Nat)
  | sleep_for (ms : Nat)
  | midiOutClose (hMidiOut : Nat) (r : Nat)
  deriving DecidableEq, Repr

/-- Whether the event is a call on the MIDI device (open, send or close). -/
def Event.isDeviceCall : Event → Bool
  | .midiOutOpen _ _ _ => true
  | .midiOutShortMsg _ _ _ => true
  | .midiOutClose _ _ => true
  | _ => false

/-- Whether the event is a `midiOutClose` call. -/
def Event.isClose : Event → Bool
  | .midiOutClose _ _ => true
  | _ => false

/-- The `MMRESULT` of a device call (`none` for console output and the sleep). -/
def Event.mmresult : Event → Option Nat
  | .midiOutOpen _ _ r => some r
  | .midiOutShortMsg _ _ r => some r
  | .midiOutClose _ r => some r
  | _ => none

/-- The external MIDI subsystem. Each API answers with an `MMRESULT`, given the
events so far and the call's arguments; `midiOutOpen` also yields the handle it
writes through its out-parameter. -/
structure Driver where
  midiOutOpen : List Event → Nat → Nat × Nat
  midiOutShortMsg : List Event → Nat → Nat → Nat
  midiOutClose : List Event → Nat → Nat

/-- What a call leaves behind: the trace so far and either the returned value or
the exception thrown. -/
structure Outcome (α : Type) where
  trace : List Event
  result : Except Exn α

/-- Sequencing: when the first part threw, the exception propagates and nothing
else runs; otherwise the rest runs on the trace reached. -/
def Outcome.andThen {α β : Type} (o : Outcome α) (k : List Event → α → Outcome β) :
    Outcome β :=
  match o.result with
  | .error e => ⟨o.trace, .error e⟩
  | .ok a => k o.trace a

/-! ## Helpers of the source -/

/-- The macro `VerifyMidi`, applied to the `MMRESULT` of the call it wraps:
throws `MidiException` unless the result is `MMSYSERR_NOERROR`. -/
def VerifyMidi (midiFuncResult : Nat) : Except Exn Unit :=
  if midiFuncResult ≠ MMSYSERR_NOERROR then .error (.MidiException midiFuncResult)
  else .ok ()

/-- `VerifyLimit`: throws `std::invalid_argument` when the value exceeds the
inclusive maximum. -/
def VerifyLimit (currentValue maxValue : Nat) (valueName : String) : Except Exn Unit :=
  if currentValue > maxValue then
    .error (.invalid_argument
      (valueName ++ ", Current: " ++ toString currentValue ++ ", Max: " ++ toString maxValue))
  else .ok ()

/-! ## Message construction and transmission -/

/-- `SelectMidiInstrument`: limit checks, then the program-change message
`[0b1100CCCC, instrument, 0, 0]` is handed to `midiOutShortMsg`. -/
def SelectMidiInstrument (drv : Driver) (hist : List Event)
    (hMidiOut channel instrument : Nat) : Outcome Unit :=
  match VerifyLimit channel 15 "Channel" with
  | .error e => ⟨hist, .error e⟩
  | .ok _ =>
    match VerifyLimit instrument 127 "Instrument" with
    | .error e => ⟨hist, .error e⟩
    | .ok _ =>
      let SetInstrumentSignature : Nat := 0b1100
      let statusByte : Nat := SetInstrumentSignature
      let statusByte : Nat := (statusByte <<< 4) % 256
      let statusByte : Nat := (statusByte ||| channel) % 256
      let midiMessage : MidiMessage := {}
      let midiMessage : MidiMessage := { midiMessage with bData0 := statusByte }
      let midiMessage : MidiMessage := { midiMessage with bData1 := instrument % 256 }
      let r := drv.midiOutShortMsg hist hMidiOut midiMessage.dwData
      ⟨hist ++ [.midiOutShortMsg hMidiOut midiMessage.dwData r], VerifyMidi r⟩

/-- `SendMidiNote`: limit checks, then the note-on message
`[0b1001CCCC, pitch, velocity, 0]` is handed to `midiOutShortMsg`. -/
def SendMidiNote (drv : Driver) (hist : List Event)
    (hMidiOut channel pitch velocity : Nat) : Outcome Unit :=
  match VerifyLimit channel 15 "Channel" with
  | .error e => ⟨hist, .error e⟩
  | .ok _ =>
    match VerifyLimit pitch 127 "Pitch" with
    | .error e => ⟨hist, .error e⟩
    | .ok _ =>
      match VerifyLimit velocity 127 "Velocity" with
      | .error e => ⟨hist, .error e⟩
      | .ok _ =>
        let NoteOnSignature : Nat := 0b1001
        let statusByte : Nat := NoteOnSignature
        let statusByte : Nat := (statusByte <<< 4) % 256
        let statusByte : Nat := (statusByte ||| channel) % 256
        let midiMessage : MidiMessage := {}
        let midiMessage : MidiMessage := { midiMessage with bData0 := statusByte }
        let midiMessage : MidiMessage := { midiMessage with bData1 := pitch % 256 }
        let midiMessage : MidiMessage := { midiMessage with bData2 := velocity % 256 }
        let r := drv.midiOutShortMsg hist hMidiOut midiMessage.dwData
        ⟨hist ++ [.midiOutShortMsg hMidiOut midiMessage.dwData r], VerifyMidi r⟩

/-- The status line `PlayNote` writes to `std::cout` before it touches the device. -/
def playingLine (channel instrument pitch velocity noteLength : Nat) : String :=
  "Playing " ++ "Channel: " ++ toString channel ++ ", "
    ++ "Instrument: " ++ toString instrument ++ ", "
    ++ "Pitch: " ++ toString pitch ++ ", "
    ++ "Velocity: " ++ toString velocity ++ ", "
    ++ "Length: " ++ toString noteLength ++ "\n"

/-- `PlayNote`: status line, open device 0, select the instrument, note on,
sleep, note on with velocity 0, close. Every step that throws ends the function
at that point. -/
def PlayNote (drv : Driver) (hist : List Event)
    (channel instrument pitch velocity noteLength : Nat) : Outcome Unit :=
  let t0 := hist ++ [.cout (playingLine channel instrument pitch velocity noteLength)]
  let opened := drv.midiOutOpen t0 0
  let hMidiOut := opened.2
  let o1 : Outcome Unit := ⟨t0 ++ [.midiOutOpen 0 hMidiOut opened.1], VerifyMidi opened.1⟩
  o1.andThen fun t1 _ =>
  (SelectMidiInstrument drv t1 hMidiOut channel instrument).andThen fun t2 _ =>
  (SendMidiNote drv t2 hMidiOut channel pitch velocity).andThen fun t3 _ =>
  let t4 := t3 ++ [.sleep_for noteLength]
  (SendMidiNote drv t4 hMidiOut channel pitch 0).andThen fun t5 _ =>
  let r := drv.midiOutClose t5 hMidiOut
  ⟨t5 ++ [.midiOutClose hMidiOut r], VerifyMidi r⟩

/-- A driver whose every call succeeds and whose open yields handle `h`. -/
def okDriver (h : Nat) : Driver where
  midiOutOpen := fun _ _ => (MMSYSERR_NOERROR, h)
  midiOutShortMsg := fun _ _ _ => MMSYSERR_NOERROR
  midiOutClose := fun _ _ => MMSYSERR_NOERROR

/-- A driver that opens with handle `h`, answers every `midiOutShortMsg` with
`r`, and closes successfully. -/
def sendAnswerDriver (h r : Nat) : Driver where
  midiOutOpen := fun _ _ => (MMSYSERR_NOERROR, h)
  midiOutShortMsg := fun _ _ _ => r
  midiOutClose := fun _ _ => MMSYSERR_NOERROR

/-- Every call on the driver succeeds, whatever happened before. -/
def Driver.AllSucceed (drv : Driver) : Prop :=
  (∀ hist d, (drv.midiOutOpen hist d).1 = MMSYSERR_NOERROR) ∧
  (∀ hist h dw, drv.midiOutShortMsg hist h dw = MMSYSERR_NOERROR) ∧
  (∀ hist h, drv.midiOutClose hist h = MMSYSERR_NOERROR)

/-! ## Command line and entry point -/

namespace ArgumentParsing

/-- The class `AppArguments` with its default member initialisers. -/
structure AppArguments where
  Channel : Nat := 0
  Instrument : Nat := 0
  Pitch : Nat := 60
  Velocity : Nat := 90
  Length : Nat := 3000
  deriving DecidableEq, Repr

/-- `ArgumentParsing::VerifyLimits`: the four limit checks, in source order. -/
def VerifyLimits (appArguments : AppArguments) : Except Exn Unit :=
  match VerifyLimit appArguments.Channel 15 "-c" with
  | .error e => .error e
  | .ok _ =>
    match VerifyLimit appArguments.Instrument 127 "-i" with
    | .error e => .error e
    | .ok _ =>
      match VerifyLimit appArguments.Pitch 127 "-p" with
      | .error e => .error e
      | .ok _ => VerifyLimit appArguments.Velocity 127 "-v"

/-- The text `std::cout` produces for `defaultArguments.Velocity / 127.0 * 100.0`
(90 / 127.0 * 100.0 at the default precision of six significant digits). -/
def defaultVelocityPercent : String := "70.8661"

/-- `PrintHelp`: one `cout` event per output statement of the source. -/
def PrintHelp (appName : String) : List Event :=
  let defaultArguments : AppArguments := {}
  [ .cout "Plays one note through Midi\n",
    .cout "\n",
    .cout ("Usage: " ++ appName ++ " [FLAGS]"),
    .cout "\n",
    .cout ("  -c [0-15]" ++ "           Channel. Default: "
      ++ toString defaultArguments.Channel ++ "\n"),
    .cout ("  -i [0-127]" ++ "          Instrument. Default: "
      ++ toString defaultArguments.Instrument ++ " (Grand Piano)\n"),
    .cout ("  -p [0-127]" ++ "          Pitch (Note). Default: "
      ++ toString defaultArguments.Pitch ++ " (Middle C Note)\n"),
    .cout ("  -v [0-127]" ++ "          Velocity (Volume). Default: "
      ++ toString defaultArguments.Velocity ++ " (" ++ defaultVelocityPercent ++ "% Loud)\n"),
    .cout ("  -l [milliseconds]" ++ "   Length (Note Length), in Milliseconds. Default: "
      ++ toString defaultArguments.Length ++ " milliseconds\n"),
    .cout ("  -?" ++ "            Prints this help\n"),
    .cout "\n",
    .cout "Examples:\n",
    .cout "\n",
    .cout (appName ++ " -i 24 -p 80\n"),
    .cout "Play Guitar Note\n",
    .cout "\n",
    .cout (appName ++ " -c 1 -i 24 -p 81 -v 120 -l 2000\n"),
    .cout "Sets Channel 1 to Guitar, Plays G Note, at Volume 120, for 2 seconds\n" ]

/-- What `app.parse(argc, argv)` of the CLI11 library does with the command
line: it throws `CLI::CallForHelp`, throws another `CLI::Error`, or returns
having filled in the argument record. The library is external; its outcome is
an input of `Parse`. -/
inductive CliParse where
  | CallForHelp
  | Error (what : String)
  | parsed (appArguments : AppArguments)
  deriving DecidableEq, Repr

/-- `ArgumentParsing::Parse`: `none` is the null pointer. -/
def Parse (cli : CliParse) (appName : String) (hist : List Event) :
    Outcome (Option AppArguments) :=
  match cli with
  | .CallForHelp => ⟨hist ++ PrintHelp appName, .ok none⟩
  | .Error what =>
    ⟨hist ++ [.cout ("Flag Error: " ++ what ++ "\n")] ++ PrintHelp appName, .ok none⟩
  | .parsed appArguments =>
    match VerifyLimits appArguments with
    | .error (.invalid_argument what) =>
      ⟨hist ++ [.cout ("Flag Limit Error: " ++ what ++ "\n")] ++ PrintHelp appName, .ok none⟩
    | .error e => ⟨hist, .error e⟩
    | .ok _ => ⟨hist, .ok (some appArguments)⟩

end ArgumentParsing

/-- The function `main`: parse, play when `Parse` returned arguments; an
exception is reported on `std::cout` and rethrown. The value is the exit code. -/
def main (drv : Driver) (cli : ArgumentParsing.CliParse) (appName : String) : Outcome Nat :=
  let body : Outcome Unit :=
    (ArgumentParsing.Parse cli appName []).andThen fun t appArguments =>
      match appArguments with
      | some a => PlayNote drv t a.Channel a.Instrument a.Pitch a.Velocity a.Length
      | none => ⟨t, .ok ()⟩
  match body.result with
  | .error e => ⟨body.trace ++ [.cout ("Exception: " ++ e.what ++ "\n")], .error e⟩
  | .ok _ => ⟨body.trace, .ok 0⟩

/-! ## Vocabulary for traces of `PlayNote` -/

/-- The program-change call as it appears in the trace. -/
def programChangeEvent (hMidiOut channel instrument r : Nat) : Event :=
  .midiOutShortMsg hMidiOut (MidiMessage.dwData ⟨0xC0 ||| channel, instrument, 0, 0⟩) r

/-- The note call as it appears in the trace. -/
def noteEvent (hMidiOut channel pitch velocity r : Nat) : Event :=
  .midiOutShortMsg hMidiOut (MidiMessage.dwData ⟨0x90 ||| channel, pitch, velocity, 0⟩) r

/-- The exits of `PlayNote`, one disjunct per place where it can stop. -/
def PlayNoteCase (hist : List Event) (c i p v len : Nat) (out : Outcome Unit) : Prop :=
  ∃ h : Nat,
    (∃ r0, r0 ≠ MMSYSERR_NOERROR ∧
      out = ⟨hist ++ [.cout (playingLine c i p v len), .midiOutOpen 0 h r0],
        .error (.MidiException r0)⟩) ∨
    (∃ m, (c > 15 ∨ i > 127) ∧
      out = ⟨hist ++ [.cout (playingLine c i p v len), .midiOutOpen 0 h MMSYSERR_NOERROR],
        .error (.invalid_argument m)⟩) ∨
    (∃ r1, r1 ≠ MMSYSERR_NOERROR ∧ c ≤ 15 ∧ i ≤ 127 ∧
      out = ⟨hist ++ [.cout (playingLine c i p v len), .midiOutOpen 0 h MMSYSERR_NOERROR,
          programChangeEvent h c i r1],
        .error (.MidiException r1)⟩) ∨
    (∃ m, c ≤ 15 ∧ i ≤ 127 ∧ (p > 127 ∨ v > 127) ∧
      out = ⟨hist ++ [.cout (playingLine c i p v len), .midiOutOpen 0 h MMSYSERR_NOERROR,
          programChangeEvent h c i MMSYSERR_NOERROR],
        .error (.invalid_argument m)⟩) ∨
    (∃ r2, r2 ≠ MMSYSERR_NOERROR ∧ c ≤ 15 ∧ i ≤ 127 ∧ p ≤ 127 ∧ v ≤ 127 ∧
      out = ⟨hist ++ [.cout (playingLine c i p v len), .midiOutOpen 0 h MMSYSERR_NOERROR,
          programChangeEvent h c i MMSYSERR_NOERROR, noteEvent h c p v r2],
        .error (.MidiException r2)⟩) ∨
    (∃ r3, r3 ≠ MMSYSERR_NOERROR ∧ c ≤ 15 ∧ i ≤ 127 ∧ p ≤ 127 ∧ v ≤ 127 ∧
      out = ⟨hist ++ [.cout (playingLine c i p v len), .midiOutOpen 0 h MMSYSERR_NOERROR,
          programChangeEvent h c i MMSYSERR_NOERROR, noteEvent h c p v MMSYSERR_NOERROR,
          .sleep_for len, noteEvent h c p 0 r3],
        .error (.MidiException r3)⟩) ∨
    (∃ r4, c ≤ 15 ∧ i ≤ 127 ∧ p ≤ 127 ∧ v ≤ 127 ∧
      out = ⟨hist ++ [.cout (playingLine c i p v len), .midiOutOpen 0 h MMSYSERR_NOERROR,
          programChangeEvent h c i MMSYSERR_NOERROR, noteEvent h c p v MMSYSERR_NOERROR,
          .sleep_for len, noteEvent h c p 0 MMSYSERR_NOERROR, .midiOutClose h r4],
        VerifyMidi r4⟩)

/-! ## Auxiliary facts -/

theorem shifted_signature_program_change : ((0b1100 : Nat) <<< 4) % 256 = 0xC0 := by decide

theorem shifted_signature_note_on : ((0b1001 : Nat) <<< 4) % 256 = 0x90 := by decide

theorem or_channel_lt (s channel : Nat) (hs : s < 256) (hc : channel ≤ 15) :
    (s ||| channel) % 256 = s ||| channel := by
  apply Nat.mod_eq_of_lt
  have h1 : s < 2 ^ 8 := by simpa using hs
  have h2 : channel < 2 ^ 8 := by
    have : (2 : Nat) ^ 8 = 256 := by norm_num
    omega
  simpa using Nat.or_lt_two_pow h1 h2

theorem bytesOf_dwData (b0 b1 b2 b3 : Nat) (h0 : b0 < 256) (h1 : b1 < 256) (h2 : b2 < 256)
    (h3 : b3 < 256) :
    bytesOf (MidiMessage.dwData ⟨b0, b1, b2, b3⟩) = [b0, b1, b2, b3] := by
  simp only [bytesOf, byteOf, MidiMessage.dwData]
  norm_num
  refine ⟨?_, ?_, ?_, ?_⟩ <;> omega

theorem VerifyLimit_ok (currentValue maxValue : Nat) (valueName : String)
    (h : currentValue ≤ maxValue) : VerifyLimit currentValue maxValue valueName = .ok () := by
  unfold VerifyLimit
  rw [if_neg (by omega)]

theorem VerifyLimit_error (currentValue maxValue : Nat) (valueName : String)
    (h : currentValue > maxValue) :
    VerifyLimit currentValue maxValue valueName = .error (.invalid_argument
      (valueName ++ ", Current: " ++ toString currentValue ++ ", Max: " ++ toString maxValue)) := by
  unfold VerifyLimit
  rw [if_pos h]

/-- The word `SelectMidiInstrument` hands to the device for in-range arguments. -/
theorem SelectMidiInstrument_inRange (drv : Driver) (hist : List Event)
    (hMidiOut channel instrument : Nat) (hc : channel ≤ 15) (hi : instrument ≤ 127) :
    SelectMidiInstrument drv hist hMidiOut channel instrument =
      ⟨hist ++ [.midiOutShortMsg hMidiOut (MidiMessage.dwData ⟨0xC0 ||| channel, instrument, 0, 0⟩)
          (drv.midiOutShortMsg hist hMidiOut
            (MidiMessage.dwData ⟨0xC0 ||| channel, instrument, 0, 0⟩))],
        VerifyMidi (drv.midiOutShortMsg hist hMidiOut
            (MidiMessage.dwData ⟨0xC0 ||| channel, instrument, 0, 0⟩))⟩ := by
  unfold SelectMidiInstrument
  rw [VerifyLimit_ok _ _ _ hc, VerifyLimit_ok _ _ _ hi]
  simp only []
  rw [shifted_signature_program_change, or_channel_lt _ _ (by norm_num) hc,
    Nat.mod_eq_of_lt (show instrument < 256 by omega)]

/-- The word `SendMidiNote` hands to the device for in-range arguments. -/
theorem SendMidiNote_inRange (drv : Driver) (hist : List Event)
    (hMidiOut channel pitch velocity : Nat) (hc : channel ≤ 15) (hp : pitch ≤ 127)
    (hv : velocity ≤ 127) :
    SendMidiNote drv hist hMidiOut channel pitch velocity =
      ⟨hist ++ [.midiOutShortMsg hMidiOut (MidiMessage.dwData ⟨0x90 ||| channel, pitch, velocity, 0⟩)
          (drv.midiOutShortMsg hist hMidiOut
            (MidiMessage.dwData ⟨0x90 ||| channel, pitch, velocity, 0⟩))],
        VerifyMidi (drv.midiOutShortMsg hist hMidiOut
            (MidiMessage.dwData ⟨0x90 ||| channel, pitch, velocity, 0⟩))⟩ := by
  unfold SendMidiNote
  rw [VerifyLimit_ok _ _ _ hc, VerifyLimit_ok _ _ _ hp, VerifyLimit_ok _ _ _ hv]
  simp only []
  rw [shifted_signature_note_on, or_channel_lt _ _ (by norm_num) hc,
    Nat.mod_eq_of_lt (show pitch < 256 by omega),
    Nat.mod_eq_of_lt (show velocity < 256 by omega)]

theorem SelectMidiInstrument_outOfRange (drv : Driver) (hist : List Event)
    (hMidiOut channel instrument : Nat) (h : channel > 15 ∨ instrument > 127) :
    ∃ msg, SelectMidiInstrument drv hist hMidiOut channel instrument =
      ⟨hist, .error (.invalid_argument msg)⟩ := by
  unfold SelectMidiInstrument
  by_cases hc : channel ≤ 15
  · have hi : instrument > 127 := by omega
    rw [VerifyLimit_ok _ _ _ hc, VerifyLimit_error _ _ _ hi]
    exact ⟨_, rfl⟩
  · rw [VerifyLimit_error _ _ _ (by omega)]
    exact ⟨_, rfl⟩

theorem SendMidiNote_outOfRange (drv : Driver) (hist : List Event)
    (hMidiOut channel pitch velocity : Nat)
    (h : channel > 15 ∨ pitch > 127 ∨ velocity > 127) :
    ∃ msg, SendMidiNote drv hist hMidiOut channel pitch velocity =
      ⟨hist, .error (.invalid_argument msg)⟩ := by
  unfold SendMidiNote
  by_cases hc : channel ≤ 15
  · rw [VerifyLimit_ok _ _ _ hc]
    by_cases hp : pitch ≤ 127
    · have hv : velocity > 127 := by omega
      rw [VerifyLimit_ok _ _ _ hp, VerifyLimit_error _ _ _ hv]
      exact ⟨_, rfl⟩
    · rw [VerifyLimit_error _ _ _ (by omega)]
      exact ⟨_, rfl⟩
  · rw [VerifyLimit_error _ _ _ (by omega)]
    exact ⟨_, rfl⟩

theorem or_channel_lt_256 (s channel : Nat) (hs : s < 256) (hc : channel ≤ 15) :
    s ||| channel < 256 := by
  have h := or_channel_lt s channel hs hc
  have : (s ||| channel) % 256 < 256 := Nat.mod_lt _ (by norm_num)
  omega

theorem VerifyMidi_ok : VerifyMidi MMSYSERR_NOERROR = .ok () := by
  simp [VerifyMidi]

theorem VerifyMidi_error (r : Nat) (h : r ≠ MMSYSERR_NOERROR) :
    VerifyMidi r = .error (.MidiException r) := by
  simp [VerifyMidi, h]

theorem andThen_error {α β : Type} (t : List Event) (e : Exn)
    (k : List Event → α → Outcome β) :
    (Outcome.andThen ⟨t, .error e⟩ k) = ⟨t, .error e⟩ := rfl

theorem andThen_ok {α β : Type} (t : List Event) (a : α)
    (k : List Event → α → Outcome β) :
    (Outcome.andThen ⟨t, .ok a⟩ k) = k t a := rfl

theorem PlayNote_cases (drv : Driver) (hist : List Event) (c i p v len : Nat) :
    PlayNoteCase hist c i p v len (PlayNote drv hist c i p v len) := by
  unfold PlayNote PlayNoteCase
  simp only []
  generalize drv.midiOutOpen (hist ++ [.cout (playingLine c i p v len)]) 0 = opened
  obtain ⟨r0, h⟩ := opened
  refine ⟨h, ?_⟩
  simp only [List.append_assoc, List.singleton_append, List.cons_append, List.nil_append]
  by_cases h0 : r0 = MMSYSERR_NOERROR
  swap
  · left
    exact ⟨_, h0, by rw [VerifyMidi_error _ h0, andThen_error]⟩
  right
  subst h0
  rw [VerifyMidi_ok, andThen_ok]
  by_cases hci : c > 15 ∨ i > 127
  · left
    obtain ⟨m, hm⟩ := SelectMidiInstrument_outOfRange drv
      (hist ++ [.cout (playingLine c i p v len), .midiOutOpen 0 h MMSYSERR_NOERROR]) h c i hci
    exact ⟨m, hci, by rw [hm, andThen_error]⟩
  right
  have hc : c ≤ 15 := by omega
  have hi : i ≤ 127 := by omega
  rw [SelectMidiInstrument_inRange _ _ _ _ _ hc hi]
  generalize drv.midiOutShortMsg _ _ _ = r1
  simp only [List.append_assoc, List.singleton_append, List.cons_append, List.nil_append]
  by_cases h1 : r1 = MMSYSERR_NOERROR
  swap
  · left
    exact ⟨_, h1, hc, hi, by rw [VerifyMidi_error _ h1, andThen_error]; rfl⟩
  right
  subst h1
  rw [VerifyMidi_ok, andThen_ok]
  by_cases hpv : p > 127 ∨ v > 127
  · left
    obtain ⟨m, hm⟩ := SendMidiNote_outOfRange drv
      (hist ++ [.cout (playingLine c i p v len), .midiOutOpen 0 h MMSYSERR_NOERROR,
        programChangeEvent h c i MMSYSERR_NOERROR]) h c p v (Or.inr hpv)
    refine ⟨m, hc, hi, hpv, ?_⟩
    unfold programChangeEvent at hm
    rw [hm, andThen_error]
    rfl
  right
  have hp : p ≤ 127 := by omega
  have hv : v ≤ 127 := by omega
  rw [SendMidiNote_inRange _ _ _ _ _ _ hc hp hv]
  generalize drv.midiOutShortMsg _ _ _ = r2
  simp only [List.append_assoc, List.singleton_append, List.cons_append, List.nil_append]
  by_cases h2 : r2 = MMSYSERR_NOERROR
  swap
  · left
    exact ⟨_, h2, hc, hi, hp, hv, by rw [VerifyMidi_error _ h2, andThen_error]; rfl⟩
  right
  subst h2
  rw [VerifyMidi_ok, andThen_ok]
  rw [SendMidiNote_inRange _ _ _ _ _ _ hc hp (Nat.zero_le 127)]
  generalize drv.midiOutShortMsg _ _ _ = r3
  simp only [List.append_assoc, List.singleton_append, List.cons_append, List.nil_append]
  by_cases h3 : r3 = MMSYSERR_NOERROR
  swap
  · left
    exact ⟨_, h3, hc, hi, hp, hv, by rw [VerifyMidi_error _ h3, andThen_error]; rfl⟩
  right
  subst h3
  rw [VerifyMidi_ok, andThen_ok]
  simp only [List.append_assoc, List.singleton_append, List.cons_append, List.nil_append]
  exact ⟨_, hc, hi, hp, hv, rfl⟩

theorem PlayNote_allSucceed (drv : Driver) (hist : List Event)
    (channel instrument pitch velocity noteLength : Nat)
    (hc : channel ≤ 15) (hi : instrument ≤ 127) (hp : pitch ≤ 127) (hv : velocity ≤ 127)
    (hok : drv.AllSucceed) :
    ∃ h, PlayNote drv hist channel instrument pitch velocity noteLength =
      ⟨hist ++ [.cout (playingLine channel instrument pitch velocity noteLength),
        .midiOutOpen 0 h MMSYSERR_NOERROR,
        programChangeEvent h channel instrument MMSYSERR_NOERROR,
        noteEvent h channel pitch velocity MMSYSERR_NOERROR,
        .sleep_for noteLength,
        noteEvent h channel pitch 0 MMSYSERR_NOERROR,
        .midiOutClose h MMSYSERR_NOERROR],
       .ok ()⟩ := by
  obtain ⟨ho, hs, hcl⟩ := hok
  refine ⟨(drv.midiOutOpen
    (hist ++ [.cout (playingLine channel instrument pitch velocity noteLength)]) 0).2, ?_⟩
  unfold PlayNote programChangeEvent noteEvent
  simp only [Outcome.andThen, SelectMidiInstrument_inRange _ _ _ _ _ hc hi,
    SendMidiNote_inRange _ _ _ _ _ _ hc hp hv,
    SendMidiNote_inRange _ _ _ _ _ _ hc hp (Nat.zero_le 127), ho, hs, hcl, VerifyMidi,
    ne_eq, not_true_eq_false, if_false, List.append_assoc, List.singleton_append,
    List.cons_append, List.nil_append]

theorem programChange_bytes (channel instrument : Nat) (hc : channel ≤ 15)
    (hi : instrument ≤ 127) :
    bytesOf (MidiMessage.dwData ⟨0xC0 ||| channel, instrument, 0, 0⟩)
      = [0xC0 ||| channel, instrument, 0, 0] :=
  bytesOf_dwData _ _ _ _ (or_channel_lt_256 _ _ (by norm_num) hc) (by omega) (by norm_num)
    (by norm_num)

theorem note_bytes (channel pitch velocity : Nat) (hc : channel ≤ 15) (hp : pitch ≤ 127)
    (hv : velocity ≤ 127) :
    bytesOf (MidiMessage.dwData ⟨0x90 ||| channel, pitch, velocity, 0⟩)
      = [0x90 ||| channel, pitch, velocity, 0] :=
  bytesOf_dwData _ _ _ _ (or_channel_lt_256 _ _ (by norm_num) hc) (by omega) (by omega)
    (by norm_num)

theorem okDriver_allSucceed (h : Nat) : (okDriver h).AllSucceed :=
  ⟨fun _ _ => rfl, fun _ _ _ => rfl, fun _ _ => rfl⟩

/-- In a list cut at a device call whose result is not success, when every
event before the last is console output, a sleep or a successful call, the cut
is at the last event. -/
theorem failing_call_is_last (l pre post : List Event) (ev : Event) (r : Nat)
    (h : l = pre ++ ev :: post)
    (hgood : ∀ e ∈ l.dropLast, e.mmresult = none ∨ e.mmresult = some MMSYSERR_NOERROR)
    (hev : ev.mmresult = some r) (hr : r ≠ MMSYSERR_NOERROR) :
    post = [] ∧ l.getLast? = some ev := by
  subst h
  cases post with
  | nil => simp
  | cons x xs =>
    exfalso
    have hmem : ev ∈ (pre ++ ev :: x :: xs).dropLast := by
      rw [List.dropLast_append_of_ne_nil _ (by simp)]
      simp [List.dropLast]
    rcases hgood ev hmem with h1 | h1
    · rw [h1] at hev
      exact Option.noConfusion hev
    · rw [h1] at hev
      exact hr (Option.some.inj hev).symm

theorem new_events_eq (hist new l : List Event) (out : Outcome Unit) (e : Except Exn Unit)
    (hrun : out.trace = hist ++ new) (hout : out = ⟨hist ++ l, e⟩) : new = l := by
  subst hout
  exact (List.append_cancel_left hrun).symm

/-! ## The message encoders -/

/-- C1. For every channel in 0..15 and instrument in 0..127, `SelectMidiInstrument`
hands exactly one message to the device, and its bytes are `0xC0 | channel`,
`instrument`, 0, 0. -/
theorem SelectMidiInstrument_message_bytes (drv : Driver) (hist : List Event)
    (hMidiOut channel instrument : Nat) (hc : channel ≤ 15) (hi : instrument ≤ 127) :
    ∃ dw r, (SelectMidiInstrument drv hist hMidiOut channel instrument).trace
        = hist ++ [.midiOutShortMsg hMidiOut dw r] ∧
      byteOf dw 0 = 0xC0 ||| channel ∧ byteOf dw 1 = instrument ∧
      byteOf dw 2 = 0 ∧ byteOf dw 3 = 0 := by
  refine ⟨_, _, by rw [SelectMidiInstrument_inRange drv hist hMidiOut channel instrument hc hi],
    ?_⟩
  have hb := bytesOf_dwData (0xC0 ||| channel) instrument 0 0
    (or_channel_lt_256 _ _ (by norm_num) hc) (by omega) (by norm_num) (by norm_num)
  simp only [bytesOf, List.cons.injEq, and_true] at hb
  exact hb

theorem SelectMidiInstrument_message_bytes_witness :
    ∃ dw r, (SelectMidiInstrument (okDriver 7) [] 7 15 127).trace
        = [] ++ [.midiOutShortMsg 7 dw r] ∧
      byteOf dw 0 = 0xC0 ||| 15 ∧ byteOf dw 1 = 127 ∧ byteOf dw 2 = 0 ∧ byteOf dw 3 = 0 :=
  SelectMidiInstrument_message_bytes (okDriver 7) [] 7 15 127 (by decide) (by decide)

/-- C2. For every channel in 0..15 and pitch, velocity in 0..127, `SendMidiNote`
hands exactly one message to the device, and its bytes are `0x90 | channel`,
`pitch`, `velocity`, 0; the high nibble of the status byte is 0x9 whatever the
velocity, so also for velocity 0. -/
theorem SendMidiNote_message_bytes (drv : Driver) (hist : List Event)
    (hMidiOut channel pitch velocity : Nat) (hc : channel ≤ 15) (hp : pitch ≤ 127)
    (hv : velocity ≤ 127) :
    ∃ dw r, (SendMidiNote drv hist hMidiOut channel pitch velocity).trace
        = hist ++ [.midiOutShortMsg hMidiOut dw r] ∧
      byteOf dw 0 = 0x90 ||| channel ∧ byteOf dw 1 = pitch ∧
      byteOf dw 2 = velocity ∧ byteOf dw 3 = 0 ∧
      byteOf dw 0 / 16 = 0x9 ∧ byteOf dw 0 / 16 ≠ 0x8 := by
  refine ⟨_, _, by rw [SendMidiNote_inRange drv hist hMidiOut channel pitch velocity hc hp hv],
    ?_⟩
  have hb := bytesOf_dwData (0x90 ||| channel) pitch velocity 0
    (or_channel_lt_256 _ _ (by norm_num) hc) (by omega) (by omega) (by norm_num)
  simp only [bytesOf, List.cons.injEq, and_true] at hb
  obtain ⟨h0, h1, h2, h3⟩ := hb
  refine ⟨h0, h1, h2, h3, ?_⟩
  rw [h0]
  have hn : (0x90 ||| channel) / 16 = 0x9 := by
    interval_cases channel <;> decide
  rw [hn]
  exact ⟨rfl, by decide⟩

theorem SendMidiNote_message_bytes_witness :
    ∃ dw r, (SendMidiNote (okDriver 7) [] 7 15 127 0).trace
        = [] ++ [.midiOutShortMsg 7 dw r] ∧
      byteOf dw 0 = 0x90 ||| 15 ∧ byteOf dw 1 = 127 ∧
      byteOf dw 2 = 0 ∧ byteOf dw 3 = 0 ∧
      byteOf dw 0 / 16 = 0x9 ∧ byteOf dw 0 / 16 ≠ 0x8 :=
  SendMidiNote_message_bytes (okDriver 7) [] 7 15 127 0 (by decide) (by decide) (by decide)

/-- C3. When `channel > 15` or a seven-bit field exceeds 127, `SelectMidiInstrument`
and `SendMidiNote` throw `std::invalid_argument` and leave the trace as it was:
no message reaches the device, so no truncated or masked value does. -/
theorem out_of_range_raises_and_sends_nothing (drv : Driver) (hist : List Event)
    (hMidiOut channel instrument pitch velocity : Nat) :
    (channel > 15 ∨ instrument > 127 →
      ∃ msg, SelectMidiInstrument drv hist hMidiOut channel instrument =
        ⟨hist, .error (.invalid_argument msg)⟩) ∧
    (channel > 15 ∨ pitch > 127 ∨ velocity > 127 →
      ∃ msg, SendMidiNote drv hist hMidiOut channel pitch velocity =
        ⟨hist, .error (.invalid_argument msg)⟩) :=
  ⟨SelectMidiInstrument_outOfRange drv hist hMidiOut channel instrument,
    SendMidiNote_outOfRange drv hist hMidiOut channel pitch velocity⟩

theorem out_of_range_raises_and_sends_nothing_witness :
    (∃ msg, SelectMidiInstrument (okDriver 7) [] 7 16 200 =
        ⟨[], .error (.invalid_argument msg)⟩) ∧
    (∃ msg, SendMidiNote (okDriver 7) [] 7 3 128 255 =
        ⟨[], .error (.invalid_argument msg)⟩) :=
  ⟨(out_of_range_raises_and_sends_nothing (okDriver 7) [] 7 16 200 128 255).1
      (Or.inl (by decide)),
    (out_of_range_raises_and_sends_nothing (okDriver 7) [] 7 3 200 128 255).2
      (Or.inr (Or.inl (by decide)))⟩

theorem VerifyMidi_eq_error (r : Nat) (e : Exn) (h : VerifyMidi r = .error e) :
    r ≠ MMSYSERR_NOERROR ∧ e = .MidiException r := by
  unfold VerifyMidi at h
  split_ifs at h with h0
  · exact ⟨h0, by cases h; rfl⟩

theorem VerifyLimits_ok_iff (a : ArgumentParsing.AppArguments) :
    ArgumentParsing.VerifyLimits a = .ok () ↔
      a.Channel ≤ 15 ∧ a.Instrument ≤ 127 ∧ a.Pitch ≤ 127 ∧ a.Velocity ≤ 127 := by
  unfold ArgumentParsing.VerifyLimits VerifyLimit
  split_ifs <;> simp <;> omega

/-! ## The note lifecycle -/

/-- C4. For in-range arguments and any length, a run of `PlayNote` in which every
device call made answered success returns normally and, after its status line on
the console, performs exactly: open device 0; send the program-change message
for (channel, instrument); send the note message for (channel, pitch,
velocity); sleep for `noteLength` milliseconds; send the note message for
(channel, pitch, 0); close the handle the open returned. -/
theorem PlayNote_lifecycle_sequence (drv : Driver) (hist new : List Event)
    (channel instrument pitch velocity noteLength : Nat)
    (hc : channel ≤ 15) (hi : instrument ≤ 127) (hp : pitch ≤ 127) (hv : velocity ≤ 127)
    (hrun : (PlayNote drv hist channel instrument pitch velocity noteLength).trace
      = hist ++ new)
    (hok : ∀ ev ∈ new, ∀ r, ev.mmresult = some r → r = MMSYSERR_NOERROR) :
    ∃ h dwProgram dwOn dwOff,
      PlayNote drv hist channel instrument pitch velocity noteLength =
        ⟨hist ++ [.cout (playingLine channel instrument pitch velocity noteLength),
          .midiOutOpen 0 h MMSYSERR_NOERROR,
          .midiOutShortMsg h dwProgram MMSYSERR_NOERROR,
          .midiOutShortMsg h dwOn MMSYSERR_NOERROR,
          .sleep_for noteLength,
          .midiOutShortMsg h dwOff MMSYSERR_NOERROR,
          .midiOutClose h MMSYSERR_NOERROR], .ok ()⟩ ∧
      bytesOf dwProgram = [0xC0 ||| channel, instrument, 0, 0] ∧
      bytesOf dwOn = [0x90 ||| channel, pitch, velocity, 0] ∧
      bytesOf dwOff = [0x90 ||| channel, pitch, 0, 0] := by
  obtain ⟨h, hcase⟩ := PlayNote_cases drv hist channel instrument pitch velocity noteLength
  rcases hcase with ⟨r0, hr0, hout⟩ | ⟨m, hbad, hout⟩ | ⟨r1, hr1, _, _, hout⟩ |
    ⟨m, _, _, hbad, hout⟩ | ⟨r2, hr2, _, _, _, _, hout⟩ | ⟨r3, hr3, _, _, _, _, hout⟩ |
    ⟨r4, _, _, _, _, hout⟩
  · have hnew := new_events_eq _ _ _ _ _ hrun hout
    exact absurd (hok (.midiOutOpen 0 h r0) (by rw [hnew]; simp) r0 rfl) hr0
  · omega
  · have hnew := new_events_eq _ _ _ _ _ hrun hout
    exact absurd (hok (programChangeEvent h channel instrument r1) (by rw [hnew]; simp) r1 rfl)
      hr1
  · omega
  · have hnew := new_events_eq _ _ _ _ _ hrun hout
    exact absurd (hok (noteEvent h channel pitch velocity r2) (by rw [hnew]; simp) r2 rfl) hr2
  · have hnew := new_events_eq _ _ _ _ _ hrun hout
    exact absurd (hok (noteEvent h channel pitch 0 r3) (by rw [hnew]; simp) r3 rfl) hr3
  · have hnew := new_events_eq _ _ _ _ _ hrun hout
    have h4 : r4 = MMSYSERR_NOERROR := hok (.midiOutClose h r4) (by rw [hnew]; simp) r4 rfl
    subst h4
    rw [VerifyMidi_ok] at hout
    exact ⟨h, _, _, _, hout, programChange_bytes channel instrument hc hi,
      note_bytes channel pitch velocity hc hp hv,
      note_bytes channel pitch 0 hc hp (Nat.zero_le _)⟩

theorem PlayNote_lifecycle_sequence_witness :
    (PlayNote (okDriver 7) [] 9 41 72 100 500).trace
      = [] ++ [.cout (playingLine 9 41 72 100 500),
          .midiOutOpen 0 7 MMSYSERR_NOERROR,
          .midiOutShortMsg 7 0x29C9 MMSYSERR_NOERROR,
          .midiOutShortMsg 7 0x644899 MMSYSERR_NOERROR,
          .sleep_for 500,
          .midiOutShortMsg 7 0x4899 MMSYSERR_NOERROR,
          .midiOutClose 7 MMSYSERR_NOERROR] ∧
    ∃ h dwProgram dwOn dwOff,
      PlayNote (okDriver 7) [] 9 41 72 100 500 =
        ⟨[] ++ [.cout (playingLine 9 41 72 100 500),
          .midiOutOpen 0 h MMSYSERR_NOERROR,
          .midiOutShortMsg h dwProgram MMSYSERR_NOERROR,
          .midiOutShortMsg h dwOn MMSYSERR_NOERROR,
          .sleep_for 500,
          .midiOutShortMsg h dwOff MMSYSERR_NOERROR,
          .midiOutClose h MMSYSERR_NOERROR], .ok ()⟩ ∧
      bytesOf dwProgram = [0xC0 ||| 9, 41, 0, 0] ∧
      bytesOf dwOn = [0x90 ||| 9, 72, 100, 0] ∧
      bytesOf dwOff = [0x90 ||| 9, 72, 0, 0] :=
  ⟨rfl,
    PlayNote_lifecycle_sequence (okDriver 7) []
      [.cout (playingLine 9 41 72 100 500),
          .midiOutOpen 0 7 MMSYSERR_NOERROR,
          .midiOutShortMsg 7 0x29C9 MMSYSERR_NOERROR,
          .midiOutShortMsg 7 0x644899 MMSYSERR_NOERROR,
          .sleep_for 500,
          .midiOutShortMsg 7 0x4899 MMSYSERR_NOERROR,
          .midiOutClose 7 MMSYSERR_NOERROR]
      9 41 72 100 500 (by decide) (by decide) (by decide) (by decide) rfl
      (by decide)⟩

/-- C9. With all device calls succeeding, the default arguments (channel 0,
instrument 0, pitch 60, velocity 90, length 3000) make `PlayNote` send
`[0xC0,0x00,0x00,0x00]`, then `[0x90,0x3C,0x5A,0x00]`, sleep 3000 ms, then send
`[0x90,0x3C,0x00,0x00]`; channel 1, instrument 24, pitch 81, velocity 120,
length 2000 give `[0xC1,0x18,0x00,0x00]`, `[0x91,0x51,0x78,0x00]`, a 2000 ms
sleep, then `[0x91,0x51,0x00,0x00]`. -/
theorem PlayNote_end_to_end_scenarios (drv : Driver) (hist : List Event)
    (hok : drv.AllSucceed) :
    (({} : ArgumentParsing.AppArguments) = ⟨0, 0, 60, 90, 3000⟩) ∧
    (∃ h dwProgram dwOn dwOff,
      PlayNote drv hist 0 0 60 90 3000 =
        ⟨hist ++ [.cout (playingLine 0 0 60 90 3000),
          .midiOutOpen 0 h MMSYSERR_NOERROR,
          .midiOutShortMsg h dwProgram MMSYSERR_NOERROR,
          .midiOutShortMsg h dwOn MMSYSERR_NOERROR,
          .sleep_for 3000,
          .midiOutShortMsg h dwOff MMSYSERR_NOERROR,
          .midiOutClose h MMSYSERR_NOERROR], .ok ()⟩ ∧
      bytesOf dwProgram = [0xC0, 0x00, 0x00, 0x00] ∧
      bytesOf dwOn = [0x90, 0x3C, 0x5A, 0x00] ∧
      bytesOf dwOff = [0x90, 0x3C, 0x00, 0x00]) ∧
    (∃ h dwProgram dwOn dwOff,
      PlayNote drv hist 1 24 81 120 2000 =
        ⟨hist ++ [.cout (playingLine 1 24 81 120 2000),
          .midiOutOpen 0 h MMSYSERR_NOERROR,
          .midiOutShortMsg h dwProgram MMSYSERR_NOERROR,
          .midiOutShortMsg h dwOn MMSYSERR_NOERROR,
          .sleep_for 2000,
          .midiOutShortMsg h dwOff MMSYSERR_NOERROR,
          .midiOutClose h MMSYSERR_NOERROR], .ok ()⟩ ∧
      bytesOf dwProgram = [0xC1, 0x18, 0x00, 0x00] ∧
      bytesOf dwOn = [0x91, 0x51, 0x78, 0x00] ∧
      bytesOf dwOff = [0x91, 0x51, 0x00, 0x00]) := by
  refine ⟨rfl, ?_, ?_⟩
  · obtain ⟨h, hrun⟩ := PlayNote_allSucceed drv hist 0 0 60 90 3000 (by decide) (by decide)
      (by decide) (by decide) hok
    exact ⟨h, _, _, _, hrun, by decide, by decide, by decide⟩
  · obtain ⟨h, hrun⟩ := PlayNote_allSucceed drv hist 1 24 81 120 2000 (by decide) (by decide)
      (by decide) (by decide) hok
    exact ⟨h, _, _, _, hrun, by decide, by decide, by decide⟩

theorem PlayNote_end_to_end_scenarios_witness :
    (okDriver 7).AllSucceed ∧
    (∃ h dwProgram dwOn dwOff,
      PlayNote (okDriver 7) [] 1 24 81 120 2000 =
        ⟨[] ++ [.cout (playingLine 1 24 81 120 2000),
          .midiOutOpen 0 h MMSYSERR_NOERROR,
          .midiOutShortMsg h dwProgram MMSYSERR_NOERROR,
          .midiOutShortMsg h dwOn MMSYSERR_NOERROR,
          .sleep_for 2000,
          .midiOutShortMsg h dwOff MMSYSERR_NOERROR,
          .midiOutClose h MMSYSERR_NOERROR], .ok ()⟩ ∧
      bytesOf dwProgram = [0xC1, 0x18, 0x00, 0x00] ∧
      bytesOf dwOn = [0x91, 0x51, 0x78, 0x00] ∧
      bytesOf dwOff = [0x91, 0x51, 0x00, 0x00]) :=
  ⟨okDriver_allSucceed 7,
    (PlayNote_end_to_end_scenarios (okDriver 7) [] (okDriver_allSucceed 7)).2.2⟩

/-- C10. For every argument record that passes `ArgumentParsing::VerifyLimits`,
every limit check `PlayNote` runs (channel and instrument in
`SelectMidiInstrument`; channel, pitch and velocity in `SendMidiNote`; velocity 0
in the note-off call) passes, and every failure of `PlayNote` is a
`MidiException` with a non-success code, never a `std::invalid_argument`. -/
theorem PlayNote_after_VerifyLimits_only_device_errors (drv : Driver) (hist : List Event)
    (a : ArgumentParsing.AppArguments) (hlim : ArgumentParsing.VerifyLimits a = .ok ()) :
    (VerifyLimit a.Channel 15 "Channel" = .ok () ∧
      VerifyLimit a.Instrument 127 "Instrument" = .ok () ∧
      VerifyLimit a.Pitch 127 "Pitch" = .ok () ∧
      VerifyLimit a.Velocity 127 "Velocity" = .ok () ∧
      VerifyLimit 0 127 "Velocity" = .ok ()) ∧
    (∀ e, (PlayNote drv hist a.Channel a.Instrument a.Pitch a.Velocity a.Length).result
        = .error e → ∃ r, r ≠ MMSYSERR_NOERROR ∧ e = .MidiException r) ∧
    (∀ m, (PlayNote drv hist a.Channel a.Instrument a.Pitch a.Velocity a.Length).result
        ≠ .error (.invalid_argument m)) := by
  obtain ⟨hc, hi, hp, hv⟩ := (VerifyLimits_ok_iff a).1 hlim
  have hdev : ∀ e, (PlayNote drv hist a.Channel a.Instrument a.Pitch a.Velocity a.Length).result
      = .error e → ∃ r, r ≠ MMSYSERR_NOERROR ∧ e = .MidiException r := by
    intro e he
    obtain ⟨h, hcase⟩ := PlayNote_cases drv hist a.Channel a.Instrument a.Pitch a.Velocity a.Length
    rcases hcase with ⟨r0, hr0, hrun⟩ | ⟨m, hbad, _⟩ | ⟨r1, hr1, _, _, hrun⟩ |
      ⟨m, _, _, hbad, _⟩ | ⟨r2, hr2, _, _, _, _, hrun⟩ | ⟨r3, hr3, _, _, _, _, hrun⟩ |
      ⟨r4, _, _, _, _, hrun⟩
    · rw [hrun] at he
      exact ⟨r0, hr0, by cases he; rfl⟩
    · omega
    · rw [hrun] at he
      exact ⟨r1, hr1, by cases he; rfl⟩
    · omega
    · rw [hrun] at he
      exact ⟨r2, hr2, by cases he; rfl⟩
    · rw [hrun] at he
      exact ⟨r3, hr3, by cases he; rfl⟩
    · rw [hrun] at he
      exact ⟨r4, VerifyMidi_eq_error r4 e he⟩
  refine ⟨⟨VerifyLimit_ok _ _ _ hc, VerifyLimit_ok _ _ _ hi, VerifyLimit_ok _ _ _ hp,
    VerifyLimit_ok _ _ _ hv, VerifyLimit_ok _ _ _ (Nat.zero_le _)⟩, hdev, ?_⟩
  intro m hm
  obtain ⟨r, _, hr⟩ := hdev _ hm
  exact Exn.noConfusion hr

theorem PlayNote_after_VerifyLimits_only_device_errors_witness :
    ArgumentParsing.VerifyLimits ⟨15, 127, 127, 127, 3000⟩ = .ok () ∧
    (∀ e, (PlayNote (okDriver 7) [] 15 127 127 127 3000).result
        = .error e → ∃ r, r ≠ MMSYSERR_NOERROR ∧ e = .MidiException r) :=
  ⟨rfl,
    (PlayNote_after_VerifyLimits_only_device_errors (okDriver 7) [] ⟨15, 127, 127, 127, 3000⟩
      rfl).2.1⟩

/-- C7. In every run of `PlayNote`, a device call (open, one of the three
sends, or close) that answers a non-success code `r` is the last event of the
run, and `PlayNote` throws `MidiException` carrying exactly `r`: nothing is
retried and no later step runs. -/
theorem PlayNote_device_failure_aborts (drv : Driver) (hist : List Event)
    (channel instrument pitch velocity noteLength : Nat) (pre post : List Event) (ev : Event)
    (r : Nat)
    (hrun : (PlayNote drv hist channel instrument pitch velocity noteLength).trace
      = hist ++ (pre ++ ev :: post))
    (hev : ev.mmresult = some r) (hr : r ≠ MMSYSERR_NOERROR) :
    (PlayNote drv hist channel instrument pitch velocity noteLength).result
      = .error (.MidiException r) ∧ post = [] := by
  obtain ⟨h, hcase⟩ := PlayNote_cases drv hist channel instrument pitch velocity noteLength
  rcases hcase with ⟨r0, hr0, hout⟩ | ⟨m, hbad, hout⟩ | ⟨r1, hr1, _, _, hout⟩ |
    ⟨m, _, _, hbad, hout⟩ | ⟨r2, hr2, _, _, _, _, hout⟩ | ⟨r3, hr3, _, _, _, _, hout⟩ |
    ⟨r4, _, _, _, _, hout⟩
  all_goals
    have hnew := new_events_eq _ _ _ _ _ hrun hout
    obtain ⟨hpost, hlast⟩ := failing_call_is_last _ _ _ _ _ hnew.symm
      (by simp [Event.mmresult, programChangeEvent, noteEvent]) hev hr
    simp only [List.getLast?_cons_cons, List.getLast?_singleton, Option.some.injEq] at hlast
    subst hlast
    simp only [Event.mmresult, programChangeEvent, noteEvent, Option.some.injEq] at hev
    rw [hout]
    first
      | (subst hev; exact ⟨rfl, hpost⟩)
      | (exact absurd hev.symm hr)
      | (subst hev; exact ⟨VerifyMidi_error _ hr, hpost⟩)

theorem VerifyMidi_eq_ok (r : Nat) (h : VerifyMidi r = .ok ()) : r = MMSYSERR_NOERROR := by
  unfold VerifyMidi at h
  split_ifs at h with h0
  exact not_not.mp h0

theorem PlayNote_device_failure_aborts_witness :
    (PlayNote (sendAnswerDriver 7 11) [] 0 0 60 90 3000).trace
      = [] ++ ([.cout (playingLine 0 0 60 90 3000), .midiOutOpen 0 7 MMSYSERR_NOERROR]
          ++ .midiOutShortMsg 7 0xC0 11 :: []) ∧
    (Event.midiOutShortMsg 7 0xC0 11).mmresult = some 11 ∧ 11 ≠ MMSYSERR_NOERROR ∧
    (PlayNote (sendAnswerDriver 7 11) [] 0 0 60 90 3000).result
      = .error (.MidiException 11) ∧ ([] : List Event) = [] :=
  ⟨rfl, rfl, by decide,
    PlayNote_device_failure_aborts (sendAnswerDriver 7 11) [] 0 0 60 90 3000
      [.cout (playingLine 0 0 60 90 3000), .midiOutOpen 0 7 MMSYSERR_NOERROR] []
      (.midiOutShortMsg 7 0xC0 11) 11 rfl rfl (by decide)⟩

/-- C5, on the code: with a driver whose open succeeds (handle 7) and whose
sends answer the error code 11, `PlayNote` stops at the program-change send and
throws; the device was opened and no `midiOutClose` call was made. -/
theorem PlayNote_leaves_device_open_on_send_failure :
    PlayNote (sendAnswerDriver 7 11) [] 0 0 60 90 3000 =
      ⟨[.cout (playingLine 0 0 60 90 3000), .midiOutOpen 0 7 MMSYSERR_NOERROR,
        .midiOutShortMsg 7 0xC0 11], .error (.MidiException 11)⟩ ∧
    Event.midiOutOpen 0 7 MMSYSERR_NOERROR
      ∈ (PlayNote (sendAnswerDriver 7 11) [] 0 0 60 90 3000).trace ∧
    ∀ ev ∈ (PlayNote (sendAnswerDriver 7 11) [] 0 0 60 90 3000).trace, ev.isClose = false := by
  have h : PlayNote (sendAnswerDriver 7 11) [] 0 0 60 90 3000 =
      ⟨[.cout (playingLine 0 0 60 90 3000), .midiOutOpen 0 7 MMSYSERR_NOERROR,
        .midiOutShortMsg 7 0xC0 11], .error (.MidiException 11)⟩ := rfl
  rw [h]
  refine ⟨rfl, by simp, ?_⟩
  intro ev hev
  simp only [List.mem_cons, List.mem_singleton, List.not_mem_nil, or_false] at hev
  rcases hev with rfl | rfl | rfl <;> rfl

/-- C6, on the code: with channel 16 and a driver whose calls all succeed,
`PlayNote` opens the device before the limit check throws; with pitch 128 it
has opened the device and sent the program change before the check throws. -/
theorem PlayNote_opens_device_before_validation :
    PlayNote (okDriver 7) [] 16 0 60 90 3000 =
      ⟨[.cout (playingLine 16 0 60 90 3000), .midiOutOpen 0 7 MMSYSERR_NOERROR],
        .error (.invalid_argument "Channel, Current: 16, Max: 15")⟩ ∧
    PlayNote (okDriver 7) [] 0 0 128 90 3000 =
      ⟨[.cout (playingLine 0 0 128 90 3000), .midiOutOpen 0 7 MMSYSERR_NOERROR,
        .midiOutShortMsg 7 0xC0 MMSYSERR_NOERROR],
        .error (.invalid_argument "Pitch, Current: 128, Max: 127")⟩ := by
  constructor
  · rfl
  · rfl

/-- C5, amended. In every run of `PlayNote`: when it returns normally, its last
action is the successful close of the handle it opened; when it throws
`std::invalid_argument` (a limit check of the program-change, note-on or
note-off step failed), or when any send of the run, at whatever position,
answered a non-success code, the device had been opened successfully and the
run contains no `midiOutClose` call. -/
theorem PlayNote_closes_only_on_success_path (drv : Driver) (hist new : List Event)
    (channel instrument pitch velocity noteLength : Nat)
    (hrun : (PlayNote drv hist channel instrument pitch velocity noteLength).trace
      = hist ++ new) :
    ((PlayNote drv hist channel instrument pitch velocity noteLength).result = .ok () →
      ∃ pre h, new = pre ++ [.midiOutClose h MMSYSERR_NOERROR] ∧
        Event.midiOutOpen 0 h MMSYSERR_NOERROR ∈ pre) ∧
    (∀ m, (PlayNote drv hist channel instrument pitch velocity noteLength).result
        = .error (.invalid_argument m) →
      (∃ h, Event.midiOutOpen 0 h MMSYSERR_NOERROR ∈ new) ∧
        ∀ ev ∈ new, ev.isClose = false) ∧
    (∀ pre post h dw r, new = pre ++ .midiOutShortMsg h dw r :: post →
      r ≠ MMSYSERR_NOERROR →
      (∃ h, Event.midiOutOpen 0 h MMSYSERR_NOERROR ∈ new) ∧
        ∀ ev ∈ new, ev.isClose = false) := by
  obtain ⟨h, hcase⟩ := PlayNote_cases drv hist channel instrument pitch velocity noteLength
  rcases hcase with ⟨r0, hr0, hout⟩ | ⟨m, hbad, hout⟩ | ⟨r1, hr1, _, _, hout⟩ |
    ⟨m, _, _, hbad, hout⟩ | ⟨r2, hr2, _, _, _, _, hout⟩ | ⟨r3, hr3, _, _, _, _, hout⟩ |
    ⟨r4, _, _, _, _, hout⟩
  all_goals
    have hnew := new_events_eq _ _ _ _ _ hrun hout
    subst hnew
    rw [hout]
    refine ⟨?_, ?_, ?_⟩
    · intro hres
      first
        | (exfalso
           simp at hres
           done)
        | (have h4 := VerifyMidi_eq_ok _ hres
           subst h4
           exact ⟨[.cout (playingLine channel instrument pitch velocity noteLength),
             .midiOutOpen 0 h MMSYSERR_NOERROR,
             programChangeEvent h channel instrument MMSYSERR_NOERROR,
             noteEvent h channel pitch velocity MMSYSERR_NOERROR,
             .sleep_for noteLength,
             noteEvent h channel pitch 0 MMSYSERR_NOERROR], h, rfl, by simp⟩)
    · intro m1 hm
      first
        | (refine ⟨⟨h, ?_⟩, ?_⟩
           · simp
           · simp [Event.isClose, programChangeEvent, noteEvent])
        | (exfalso
           simp at hm
           done)
        | (exfalso
           have h4 := (VerifyMidi_eq_error _ _ hm).2
           exact Exn.noConfusion h4)
    · intro pre1 post1 h1 dw r heq hr
      first
        | (refine ⟨⟨h, ?_⟩, ?_⟩
           · simp
           · simp [Event.isClose, programChangeEvent, noteEvent])
        | (exfalso
           have hmem : Event.midiOutShortMsg h1 dw r ∈ pre1 ++ .midiOutShortMsg h1 dw r :: post1 :=
             List.mem_append_right _ (List.mem_cons_self _ _)
           rw [← heq] at hmem
           simp [programChangeEvent, noteEvent, hr] at hmem)

theorem PlayNote_closes_only_on_success_path_witness :
    ((PlayNote (okDriver 7) [] 16 0 60 90 3000).trace
      = [] ++ [.cout (playingLine 16 0 60 90 3000), .midiOutOpen 0 7 MMSYSERR_NOERROR] ∧
    (PlayNote (okDriver 7) [] 16 0 60 90 3000).result
      = .error (.invalid_argument "Channel, Current: 16, Max: 15") ∧
    ((∃ h, Event.midiOutOpen 0 h MMSYSERR_NOERROR
        ∈ [Event.cout (playingLine 16 0 60 90 3000), .midiOutOpen 0 7 MMSYSERR_NOERROR]) ∧
      ∀ ev ∈ [Event.cout (playingLine 16 0 60 90 3000), .midiOutOpen 0 7 MMSYSERR_NOERROR],
        ev.isClose = false)) ∧
    ((PlayNote (sendAnswerDriver 7 11) [] 0 0 60 90 3000).trace
      = [] ++ [.cout (playingLine 0 0 60 90 3000), .midiOutOpen 0 7 MMSYSERR_NOERROR,
          .midiOutShortMsg 7 0xC0 11] ∧
    11 ≠ MMSYSERR_NOERROR ∧
    ((∃ h, Event.midiOutOpen 0 h MMSYSERR_NOERROR
        ∈ [Event.cout (playingLine 0 0 60 90 3000), .midiOutOpen 0 7 MMSYSERR_NOERROR,
          .midiOutShortMsg 7 0xC0 11]) ∧
      ∀ ev ∈ [Event.cout (playingLine 0 0 60 90 3000), .midiOutOpen 0 7 MMSYSERR_NOERROR,
          .midiOutShortMsg 7 0xC0 11],
        ev.isClose = false)) :=
  ⟨⟨rfl, rfl,
    (PlayNote_closes_only_on_success_path (okDriver 7) []
      [.cout (playingLine 16 0 60 90 3000), .midiOutOpen 0 7 MMSYSERR_NOERROR]
      16 0 60 90 3000 rfl).2.1 "Channel, Current: 16, Max: 15" rfl⟩,
   ⟨rfl, by decide,
    (PlayNote_closes_only_on_success_path (sendAnswerDriver 7 11) []
      [.cout (playingLine 0 0 60 90 3000), .midiOutOpen 0 7 MMSYSERR_NOERROR,
        .midiOutShortMsg 7 0xC0 11]
      0 0 60 90 3000 rfl).2.2
      [.cout (playingLine 0 0 60 90 3000), .midiOutOpen 0 7 MMSYSERR_NOERROR] [] 7 0xC0 11
      rfl (by decide)⟩⟩

/-- C6, amended. When the device calls succeed: if channel > 15 or instrument >
127, `PlayNote` opens device 0 and then throws `std::invalid_argument` before
any message is sent; if channel and instrument are in range and pitch > 127 or
velocity > 127, it opens device 0, sends the program change and then throws
`std::invalid_argument` before any note message is sent. In both cases there is
no sleep and no close call. -/
theorem PlayNote_validation_after_open (drv : Driver) (hist : List Event)
    (channel instrument pitch velocity noteLength : Nat) (hok : drv.AllSucceed) :
    (channel > 15 ∨ instrument > 127 →
      ∃ h m, PlayNote drv hist channel instrument pitch velocity noteLength =
        ⟨hist ++ [.cout (playingLine channel instrument pitch velocity noteLength),
          .midiOutOpen 0 h MMSYSERR_NOERROR], .error (.invalid_argument m)⟩) ∧
    (channel ≤ 15 → instrument ≤ 127 → pitch > 127 ∨ velocity > 127 →
      ∃ h dw m, PlayNote drv hist channel instrument pitch velocity noteLength =
        ⟨hist ++ [.cout (playingLine channel instrument pitch velocity noteLength),
          .midiOutOpen 0 h MMSYSERR_NOERROR, .midiOutShortMsg h dw MMSYSERR_NOERROR],
          .error (.invalid_argument m)⟩ ∧
        bytesOf dw = [0xC0 ||| channel, instrument, 0, 0]) := by
  obtain ⟨ho, hs, _⟩ := hok
  constructor
  · intro hbad
    obtain ⟨m, hm⟩ := SelectMidiInstrument_outOfRange drv
      (hist ++ [.cout (playingLine channel instrument pitch velocity noteLength),
        .midiOutOpen 0 (drv.midiOutOpen
          (hist ++ [.cout (playingLine channel instrument pitch velocity noteLength)]) 0).2
          MMSYSERR_NOERROR])
      (drv.midiOutOpen
          (hist ++ [.cout (playingLine channel instrument pitch velocity noteLength)]) 0).2
      channel instrument hbad
    refine ⟨(drv.midiOutOpen
      (hist ++ [.cout (playingLine channel instrument pitch velocity noteLength)]) 0).2, m, ?_⟩
    unfold PlayNote
    simp only [List.append_assoc, List.singleton_append, List.cons_append, List.nil_append, ho,
      VerifyMidi_ok, andThen_ok]
    rw [hm, andThen_error]
  · intro hc hi hbad
    obtain ⟨m, hm⟩ := SendMidiNote_outOfRange drv
      (hist ++ [.cout (playingLine channel instrument pitch velocity noteLength),
        .midiOutOpen 0 (drv.midiOutOpen
          (hist ++ [.cout (playingLine channel instrument pitch velocity noteLength)]) 0).2
          MMSYSERR_NOERROR,
        .midiOutShortMsg (drv.midiOutOpen
          (hist ++ [.cout (playingLine channel instrument pitch velocity noteLength)]) 0).2
          (MidiMessage.dwData ⟨0xC0 ||| channel, instrument, 0, 0⟩) MMSYSERR_NOERROR])
      (drv.midiOutOpen
          (hist ++ [.cout (playingLine channel instrument pitch velocity noteLength)]) 0).2
      channel pitch velocity (Or.inr hbad)
    refine ⟨(drv.midiOutOpen
      (hist ++ [.cout (playingLine channel instrument pitch velocity noteLength)]) 0).2,
      MidiMessage.dwData ⟨0xC0 ||| channel, instrument, 0, 0⟩, m, ?_,
      programChange_bytes channel instrument hc hi⟩
    unfold PlayNote
    simp only [List.append_assoc, List.singleton_append, List.cons_append, List.nil_append, ho,
      VerifyMidi_ok, andThen_ok, SelectMidiInstrument_inRange _ _ _ _ _ hc hi, hs]
    rw [hm, andThen_error]

theorem PlayNote_validation_after_open_witness :
    (okDriver 7).AllSucceed ∧
    (∃ h m, PlayNote (okDriver 7) [] 200 0 60 90 3000 =
        ⟨[] ++ [.cout (playingLine 200 0 60 90 3000),
          .midiOutOpen 0 h MMSYSERR_NOERROR], .error (.invalid_argument m)⟩) ∧
    (∃ h dw m, PlayNote (okDriver 7) [] 3 5 60 255 3000 =
        ⟨[] ++ [.cout (playingLine 3 5 60 255 3000),
          .midiOutOpen 0 h MMSYSERR_NOERROR, .midiOutShortMsg h dw MMSYSERR_NOERROR],
          .error (.invalid_argument m)⟩ ∧
        bytesOf dw = [0xC0 ||| 3, 5, 0, 0]) :=
  ⟨okDriver_allSucceed 7,
    (PlayNote_validation_after_open (okDriver 7) [] 200 0 60 90 3000 (okDriver_allSucceed 7)).1
      (Or.inl (by decide)),
    (PlayNote_validation_after_open (okDriver 7) [] 3 5 60 255 3000 (okDriver_allSucceed 7)).2
      (by decide) (by decide) (Or.inr (by decide))⟩

/-! ## The argument check -/

theorem Parse_limit_error (a : ArgumentParsing.AppArguments) (appName msg : String)
    (hist : List Event) (h : ArgumentParsing.VerifyLimits a = .error (.invalid_argument msg)) :
    ArgumentParsing.Parse (.parsed a) appName hist =
      ⟨hist ++ [.cout ("Flag Limit Error: " ++ msg ++ "\n")] ++ ArgumentParsing.PrintHelp appName,
        .ok none⟩ := by
  unfold ArgumentParsing.Parse
  simp only [h]

theorem main_limit_error (drv : Driver) (a : ArgumentParsing.AppArguments)
    (appName msg : String)
    (h : ArgumentParsing.VerifyLimits a = .error (.invalid_argument msg)) :
    main drv (.parsed a) appName =
      ⟨[.cout ("Flag Limit Error: " ++ msg ++ "\n")] ++ ArgumentParsing.PrintHelp appName,
        .ok 0⟩ := by
  unfold main
  simp only [Parse_limit_error a appName msg [] h, andThen_ok, List.nil_append]

theorem PrintHelp_no_device_call (appName : String) :
    ∀ ev ∈ ArgumentParsing.PrintHelp appName, ev.isDeviceCall = false := by
  intro ev hev
  unfold ArgumentParsing.PrintHelp at hev
  simp only [List.mem_cons, List.mem_singleton, List.not_mem_nil, or_false] at hev
  rcases hev with h | h | h | h | h | h | h | h | h | h | h | h | h | h | h | h | h | h <;>
    (subst h; rfl)

/-- C8. For every argument record: `VerifyLimits` throws iff Channel > 15 or
Instrument > 127 or Pitch > 127 or Velocity > 127, and accepts the maxima 15 and
127; the message it throws is `flag, Current: value, Max: max` for the first
offending flag in the order -c, -i, -p, -v (channel 16 gives
`-c, Current: 16, Max: 15`); and when it throws, `Parse` prints the diagnostic
and the help text and returns no arguments, and `main` ends there with no
device call in its trace. -/
theorem VerifyLimits_diagnostic_and_no_play (a : ArgumentParsing.AppArguments) (drv : Driver)
    (appName : String) (hist : List Event) :
    ((∃ e, ArgumentParsing.VerifyLimits a = .error e) ↔
      (a.Channel > 15 ∨ a.Instrument > 127 ∨ a.Pitch > 127 ∨ a.Velocity > 127)) ∧
    ArgumentParsing.VerifyLimits ⟨15, 127, 127, 127, a.Length⟩ = .ok () ∧
    (a.Channel > 15 → ArgumentParsing.VerifyLimits a = .error (.invalid_argument
      ("-c" ++ ", Current: " ++ toString a.Channel ++ ", Max: " ++ toString 15))) ∧
    (a.Channel ≤ 15 → a.Instrument > 127 →
      ArgumentParsing.VerifyLimits a = .error (.invalid_argument
        ("-i" ++ ", Current: " ++ toString a.Instrument ++ ", Max: " ++ toString 127))) ∧
    (a.Channel ≤ 15 → a.Instrument ≤ 127 → a.Pitch > 127 →
      ArgumentParsing.VerifyLimits a = .error (.invalid_argument
        ("-p" ++ ", Current: " ++ toString a.Pitch ++ ", Max: " ++ toString 127))) ∧
    (a.Channel ≤ 15 → a.Instrument ≤ 127 → a.Pitch ≤ 127 → a.Velocity > 127 →
      ArgumentParsing.VerifyLimits a = .error (.invalid_argument
        ("-v" ++ ", Current: " ++ toString a.Velocity ++ ", Max: " ++ toString 127))) ∧
    ArgumentParsing.VerifyLimits { Channel := 16 }
      = .error (.invalid_argument "-c, Current: 16, Max: 15") ∧
    (∀ e, ArgumentParsing.VerifyLimits a = .error e →
      ArgumentParsing.Parse (.parsed a) appName hist =
        ⟨hist ++ [.cout ("Flag Limit Error: " ++ e.what ++ "\n")]
          ++ ArgumentParsing.PrintHelp appName, .ok none⟩ ∧
      main drv (.parsed a) appName =
        ⟨[.cout ("Flag Limit Error: " ++ e.what ++ "\n")]
          ++ ArgumentParsing.PrintHelp appName, .ok 0⟩ ∧
      ∀ ev ∈ (main drv (.parsed a) appName).trace, ev.isDeviceCall = false) := by
  have hc : a.Channel > 15 → ArgumentParsing.VerifyLimits a = .error (.invalid_argument
      ("-c" ++ ", Current: " ++ toString a.Channel ++ ", Max: " ++ toString 15)) := by
    intro h
    unfold ArgumentParsing.VerifyLimits
    rw [VerifyLimit_error _ _ _ h]
  have hi : a.Channel ≤ 15 → a.Instrument > 127 →
      ArgumentParsing.VerifyLimits a = .error (.invalid_argument
        ("-i" ++ ", Current: " ++ toString a.Instrument ++ ", Max: " ++ toString 127)) := by
    intro h1 h2
    unfold ArgumentParsing.VerifyLimits
    rw [VerifyLimit_ok _ _ _ h1, VerifyLimit_error _ _ _ h2]
  have hp : a.Channel ≤ 15 → a.Instrument ≤ 127 → a.Pitch > 127 →
      ArgumentParsing.VerifyLimits a = .error (.invalid_argument
        ("-p" ++ ", Current: " ++ toString a.Pitch ++ ", Max: " ++ toString 127)) := by
    intro h1 h2 h3
    unfold ArgumentParsing.VerifyLimits
    rw [VerifyLimit_ok _ _ _ h1, VerifyLimit_ok _ _ _ h2, VerifyLimit_error _ _ _ h3]
  have hv : a.Channel ≤ 15 → a.Instrument ≤ 127 → a.Pitch ≤ 127 → a.Velocity > 127 →
      ArgumentParsing.VerifyLimits a = .error (.invalid_argument
        ("-v" ++ ", Current: " ++ toString a.Velocity ++ ", Max: " ++ toString 127)) := by
    intro h1 h2 h3 h4
    unfold ArgumentParsing.VerifyLimits
    rw [VerifyLimit_ok _ _ _ h1, VerifyLimit_ok _ _ _ h2, VerifyLimit_ok _ _ _ h3,
      VerifyLimit_error _ _ _ h4]
  have hinv : ∀ e, ArgumentParsing.VerifyLimits a = .error e →
      ArgumentParsing.VerifyLimits a = .error (.invalid_argument e.what) := by
    intro e he
    by_cases h1 : a.Channel > 15
    · have := hc h1
      rw [this] at he ⊢
      cases he
      rfl
    by_cases h2 : a.Instrument > 127
    · have := hi (by omega) h2
      rw [this] at he ⊢
      cases he
      rfl
    by_cases h3 : a.Pitch > 127
    · have := hp (by omega) (by omega) h3
      rw [this] at he ⊢
      cases he
      rfl
    by_cases h4 : a.Velocity > 127
    · have := hv (by omega) (by omega) (by omega) h4
      rw [this] at he ⊢
      cases he
      rfl
    · have hok := (VerifyLimits_ok_iff a).2 ⟨by omega, by omega, by omega, by omega⟩
      rw [hok] at he
      cases he
  refine ⟨⟨?_, ?_⟩, rfl, hc, hi, hp, hv, rfl, ?_⟩
  · rintro ⟨e, he⟩
    by_contra hcon
    have hok := (VerifyLimits_ok_iff a).2 ⟨by omega, by omega, by omega, by omega⟩
    rw [hok] at he
    cases he
  · intro hbad
    by_cases h1 : a.Channel > 15
    · exact ⟨_, hc h1⟩
    by_cases h2 : a.Instrument > 127
    · exact ⟨_, hi (by omega) h2⟩
    by_cases h3 : a.Pitch > 127
    · exact ⟨_, hp (by omega) (by omega) h3⟩
    · exact ⟨_, hv (by omega) (by omega) (by omega) (by omega)⟩
  · intro e he
    have hm := main_limit_error drv a appName e.what (hinv e he)
    refine ⟨Parse_limit_error a appName e.what hist (hinv e he), hm, ?_⟩
    rw [hm]
    intro ev hev
    simp only [List.singleton_append, List.mem_cons] at hev
    rcases hev with h | h
    · subst h
      rfl
    · exact PrintHelp_no_device_call appName ev h

theorem VerifyLimits_diagnostic_and_no_play_witness :
    ArgumentParsing.VerifyLimits ⟨3, 200, 60, 255, 3000⟩ = .error (.invalid_argument
        ("-i" ++ ", Current: " ++ toString 200 ++ ", Max: " ++ toString 127)) ∧
    main (okDriver 7) (.parsed ⟨3, 200, 60, 255, 3000⟩) "OneNoteMidi.exe" =
        ⟨[.cout ("Flag Limit Error: " ++ "-i, Current: 200, Max: 127" ++ "\n")]
          ++ ArgumentParsing.PrintHelp "OneNoteMidi.exe", .ok 0⟩ :=
  ⟨(VerifyLimits_diagnostic_and_no_play ⟨3, 200, 60, 255, 3000⟩ (okDriver 7)
      "OneNoteMidi.exe" []).2.2.2.1 (by decide) (by decide),
    ((VerifyLimits_diagnostic_and_no_play ⟨3, 200, 60, 255, 3000⟩ (okDriver 7)
      "OneNoteMidi.exe" []).2.2.2.2.2.2.2
        (.invalid_argument "-i, Current: 200, Max: 127") rfl).2.1⟩

end OneNoteMidi
